import Mathlib

/-!
Verification of the TuiScrollbar performance-analysis harness
(`scrollbar-performance` Playwright suite).

The statistics engine, metric extractor, variant catalog generator,
orchestrator gates and results store are shallowly embedded below.
JavaScript numbers are modelled as rationals (`ℚ`); the only operation
leaving `ℚ` is `Math.sqrt`, modelled as `Real.sqrt` on the coercion
into `ℝ`.  `Array.prototype.sort` with comparator `(a, b) => a - b`
is ascending numeric sort; since the ascending reordering of a list of
rationals is unique (equal elements are indistinguishable), it is
modelled by `List.insertionSort (· ≤ ·)`.  `Math.floor` applied to a
non-negative rational is `Nat.floor`.
-/

-- ========================================================================================
-- Data model
-- ========================================================================================

/-- Structure `PerformanceMetrics` from the suite: four aggregate counters per trial. -/
structure PerformanceMetrics where
  layoutCount : ℚ
  recalcStyleCount : ℚ
  layoutDuration : ℚ
  recalcStyleDuration : ℚ
deriving DecidableEq, Repr

/-- Constant `CONFIG.confidenceLevel` (z-score for 95% two-sided). -/
def confidenceLevel : ℚ := 196 / 100

-- ========================================================================================
-- Statistics engine
-- ========================================================================================

/-- Arithmetic mean: `values.reduce((a, b) => a + b, 0) / values.length`. -/
def mean (values : List ℚ) : ℚ :=
  values.foldl (fun a b => a + b) 0 / values.length

/-- Body of `PerformanceMeasurer.standardDeviation` before the square root:
population variance (division by `n`, not `n - 1`). -/
def variance (values : List ℚ) : ℚ :=
  (values.foldl (fun a b => a + (b - mean values) ^ 2) 0) / values.length

/-- Function `PerformanceMeasurer.standardDeviation`: `Math.sqrt(variance)`. -/
noncomputable def standardDeviation (values : List ℚ) : ℝ :=
  Real.sqrt (variance values)

/-- Margin of error: `CONFIG.confidenceLevel * stdDev / Math.sqrt(values.length)`. -/
noncomputable def marginOfError (values : List ℚ) : ℝ :=
  (confidenceLevel : ℝ) * standardDeviation values / Real.sqrt (values.length : ℝ)

/-- Confidence interval: `[mean - marginOfError, mean + marginOfError]`. -/
noncomputable def confidenceInterval (values : List ℚ) : ℝ × ℝ :=
  ((mean values : ℝ) - marginOfError values, (mean values : ℝ) + marginOfError values)

/-- Sorted copy of the primary-metric sample:
`durations = runs.map(r => r.layoutDuration); durations.sort((a, b) => a - b)`. -/
def sortedLayoutDurations (runs : List PerformanceMetrics) : List ℚ :=
  List.insertionSort (· ≤ ·) (runs.map (·.layoutDuration))

/-- Quartile `q1 = durations[Math.floor(durations.length * 0.25)] ?? 0`. -/
def q1Of (runs : List PerformanceMetrics) : ℚ :=
  (sortedLayoutDurations runs).getD
    ⌊((sortedLayoutDurations runs).length : ℚ) * (25 / 100)⌋₊ 0

/-- Quartile `q3 = durations[Math.floor(durations.length * 0.75)] ?? 0`. -/
def q3Of (runs : List PerformanceMetrics) : ℚ :=
  (sortedLayoutDurations runs).getD
    ⌊((sortedLayoutDurations runs).length : ℚ) * (75 / 100)⌋₊ 0

/-- Bound `lowerBound = q1 - 1.5 * iqr`. -/
def lowerBoundOf (runs : List PerformanceMetrics) : ℚ :=
  q1Of runs - 3 / 2 * (q3Of runs - q1Of runs)

/-- Bound `upperBound = q3 + 1.5 * iqr`. -/
def upperBoundOf (runs : List PerformanceMetrics) : ℚ :=
  q3Of runs + 3 / 2 * (q3Of runs - q1Of runs)

/-- Function `PerformanceMeasurer.removeOutliers`: IQR filter on the
`layoutDuration` primary metric, identity below sample size 4. -/
def removeOutliers (runs : List PerformanceMetrics) : List PerformanceMetrics :=
  if runs.length < 4 then runs
  else
    runs.filter fun run =>
      decide (lowerBoundOf runs ≤ run.layoutDuration) &&
      decide (run.layoutDuration ≤ upperBoundOf runs)

/-- Structure `StatisticalSummary` from the suite: per-field means, confidence
intervals and standard deviations. -/
structure StatisticalSummary where
  layoutCount : ℚ
  layoutDuration : ℚ
  recalcStyleCount : ℚ
  recalcStyleDuration : ℚ
  confidenceLayoutCount : ℝ × ℝ
  confidenceLayoutDuration : ℝ × ℝ
  confidenceRecalcStyleCount : ℝ × ℝ
  confidenceRecalcStyleDuration : ℝ × ℝ
  sdLayoutCount : ℝ
  sdLayoutDuration : ℝ
  sdRecalcStyleCount : ℝ
  sdRecalcStyleDuration : ℝ

/-- Function `PerformanceMeasurer.calculateStatistics`: outlier filtering followed by
the per-metric mean / stddev / confidence-interval loop. -/
noncomputable def calculateStatistics (runs : List PerformanceMetrics) :
    StatisticalSummary :=
  let filteredRuns := removeOutliers runs
  let lc := filteredRuns.map (·.layoutCount)
  let ld := filteredRuns.map (·.layoutDuration)
  let rc := filteredRuns.map (·.recalcStyleCount)
  let rd := filteredRuns.map (·.recalcStyleDuration)
  { layoutCount := mean lc
    layoutDuration := mean ld
    recalcStyleCount := mean rc
    recalcStyleDuration := mean rd
    confidenceLayoutCount := confidenceInterval lc
    confidenceLayoutDuration := confidenceInterval ld
    confidenceRecalcStyleCount := confidenceInterval rc
    confidenceRecalcStyleDuration := confidenceInterval rd
    sdLayoutCount := standardDeviation lc
    sdLayoutDuration := standardDeviation ld
    sdRecalcStyleCount := standardDeviation rc
    sdRecalcStyleDuration := standardDeviation rd }

-- ========================================================================================
-- Specification-side restatement of removeOutliers (for the refinement claim)
-- ========================================================================================

/-- The outlier filter as the specification words it: below 4 trials return
the input unchanged; otherwise Q1 is the sorted element at zero-based index
`floor(n * 0.25)` (written in integer arithmetic), Q3 at `floor(n * 0.75)`,
and exactly the trials whose `layoutDuration` lies within
`[Q1 - 1.5*IQR, Q3 + 1.5*IQR]` inclusive are kept, in original order. -/
def removeOutliersSpec (trials : List PerformanceMetrics) :
    List PerformanceMetrics :=
  if trials.length < 4 then trials
  else
    let n := trials.length
    let sorted := List.insertionSort (· ≤ ·) (trials.map (·.layoutDuration))
    let q1 := sorted.getD (n * 25 / 100) 0
    let q3 := sorted.getD (n * 75 / 100) 0
    let iqr := q3 - q1
    trials.filter fun t =>
      decide (q1 - 3 / 2 * iqr ≤ t.layoutDuration) &&
      decide (t.layoutDuration ≤ q3 + 3 / 2 * iqr)

-- ========================================================================================
-- C1: the concrete five-trial scenario
-- ========================================================================================

/-- The concrete scenario's trial list: `layoutDuration` samples
`[10, 12, 11, 13, 50]` (the other three fields are irrelevant and set to 0). -/
def sampleTrials : List PerformanceMetrics :=
  [⟨0, 0, 10, 0⟩, ⟨0, 0, 12, 0⟩, ⟨0, 0, 11, 0⟩, ⟨0, 0, 13, 0⟩, ⟨0, 0, 50, 0⟩]

-- ========================================================================================
-- C8: unclamped confidence intervals can go negative
-- ========================================================================================

/-- A small, high-variance trial list with all metric values non-negative:
`layoutDuration` samples `[0, 0, 10]` (below the outlier-filter threshold). -/
def smallHighVarianceTrials : List PerformanceMetrics :=
  [⟨0, 0, 0, 0⟩, ⟨0, 0, 0, 0⟩, ⟨0, 0, 10, 0⟩]

-- ========================================================================================
-- Metric extractor (C3)
-- ========================================================================================

/-- A CDP trace event as consumed by `extractMetrics`: `dur` and `cat` are
optional exactly as in the `PerformanceEvent` interface. -/
structure PerformanceEvent where
  name : String
  ts : ℚ
  dur : Option ℚ := none
  cat : Option String := none
deriving DecidableEq, Repr

/-- Character-list version of `String.startsWith` (used to build the
substring test below). -/
def leadsWith : List Char → List Char → Bool
  | [], _ => true
  | _ :: _, [] => false
  | p :: ps, c :: cs => p = c && leadsWith ps cs

/-- Character-list version of `String.prototype.includes`: does `pat` occur
as a contiguous run inside the second list? -/
def hasSub (pat : List Char) : List Char → Bool
  | [] => leadsWith pat []
  | c :: cs => leadsWith pat (c :: cs) || hasSub pat cs

/-- Category test `event.cat?.includes('devtools.timeline')`, with the optional chain
collapsing a missing category to a skip. -/
def catHasTimeline (event : PerformanceEvent) : Bool :=
  match event.cat with
  | none => false
  | some c => hasSub "devtools.timeline".toList c.toList

/-- Duration `const durationMs = event.dur ? event.dur / 1000 : 0` (a present duration
of 0 and an absent one both yield 0). -/
def eventDurationMs (event : PerformanceEvent) : ℚ :=
  match event.dur with
  | some d => d / 1000
  | none => 0

/-- The initial `metrics` accumulator of `extractMetrics`. -/
def emptyMetrics : PerformanceMetrics := ⟨0, 0, 0, 0⟩

/-- One iteration of the `extractMetrics` loop: skip non-timeline events,
dispatch `Layout` to the layout bucket and `RecalculateStyles` /
`UpdateLayoutTree` to the recalc bucket, ignore other names. -/
def processEvent (metrics : PerformanceMetrics) (event : PerformanceEvent) :
    PerformanceMetrics :=
  if !catHasTimeline event then metrics
  else if event.name = "Layout" then
    { metrics with
      layoutCount := metrics.layoutCount + 1
      layoutDuration := metrics.layoutDuration + eventDurationMs event }
  else if event.name = "RecalculateStyles" || event.name = "UpdateLayoutTree" then
    { metrics with
      recalcStyleCount := metrics.recalcStyleCount + 1
      recalcStyleDuration := metrics.recalcStyleDuration + eventDurationMs event }
  else metrics

/-- Function `PerformanceMeasurer.extractMetrics`: fold the per-event dispatch over
the trace, starting from all-zero counters. -/
def extractMetrics (events : List PerformanceEvent) : PerformanceMetrics :=
  events.foldl processEvent emptyMetrics

/-- Field-wise sum of two metric records. -/
def addMetrics (a b : PerformanceMetrics) : PerformanceMetrics :=
  ⟨a.layoutCount + b.layoutCount, a.recalcStyleCount + b.recalcStyleCount,
    a.layoutDuration + b.layoutDuration,
    a.recalcStyleDuration + b.recalcStyleDuration⟩

/-- A timeline `Layout` event with a 2000 microsecond duration. -/
def sampleLayoutEvent : PerformanceEvent :=
  ⟨"Layout", 0, some 2000, some "devtools.timeline"⟩

/-- A timeline `UpdateLayoutTree` event with no duration field. -/
def sampleRecalcEvent : PerformanceEvent :=
  ⟨"UpdateLayoutTree", 1, none, some "devtools.timeline,blink"⟩

-- ========================================================================================
-- Variant catalog generator (C4)
-- ========================================================================================

/-- Enumeration `TestVariant.config.scheduler`: `'microtask' | 'raf'`. -/
inductive Scheduler where
  | microtask
  | raf
deriving DecidableEq, Repr

/-- Structure `TestVariant.config`: the optional flags are `Option` exactly as the
TypeScript fields are optional (`...(withGpu ? {useGpuAcceleration: true} : {})`
leaves the field absent). -/
structure VariantConfig where
  debounceMs : Nat
  throttleMs : Nat
  scheduler : Scheduler
  useGpuAcceleration : Option Bool := none
  useOriginalScrollControls : Option Bool := none
deriving DecidableEq, Repr

/-- Structure `TestVariant`: a named benchmark configuration. -/
structure TestVariant where
  name : String
  description : String
  config : VariantConfig
deriving DecidableEq, Repr

/-- Loop body of `range`, with explicit fuel (`stop + 1` iterations suffice for
any positive step, and the suite only instantiates positive steps). -/
def rangeGo (step : Nat) : Nat → Nat → Nat → List Nat
  | 0, _, _ => []
  | fuel + 1, v, stop => if v ≤ stop then v :: rangeGo step fuel (v + step) stop else []

/-- Function `range(start, end, step)`: `for (let v = start; v <= end; v += step) out.push(v)`. -/
def range (start stop step : Nat) : List Nat :=
  rangeGo step (stop + 1) start stop

/-- Constant `DEBOUNCE_VALUES = range(50, 100, 10)`. -/
def DEBOUNCE_VALUES : List Nat := range 50 100 10

/-- Constant `SCROLL_THROTTLE_VALUES = range(0, 16, 2)`. -/
def SCROLL_THROTTLE_VALUES : List Nat := range 0 16 2

/-- Constant `RAF_THROTTLE_VALUES = range(0, 10, 2)`. -/
def RAF_THROTTLE_VALUES : List Nat := range 0 10 2

/-- Function `makeEventVariant(debounceMs, throttleMs, withGpu)`. -/
def makeEventVariant (debounceMs throttleMs : Nat) (withGpu : Bool) : TestVariant :=
  let title := if withGpu then "events+transform(gpu)" else "events"
  { name := title ++ "-d" ++ toString debounceMs ++ "ms-t" ++ toString throttleMs ++ "ms"
    description := title ++ " with separate debounce (RO/MO) and throttle (scroll)"
    config :=
      { debounceMs := debounceMs
        throttleMs := throttleMs
        scheduler := .microtask
        useGpuAcceleration := if withGpu then some true else none } }

/-- Function `makeRafVariant(throttleMs)`. -/
def makeRafVariant (throttleMs : Nat) : TestVariant :=
  { name := "raf-t" ++ toString throttleMs ++ "ms"
    description :=
      "RAF in BOTH scroll-controls and directive (baseline polling), throttle on RAF stream"
    config :=
      { debounceMs := 0
        throttleMs := throttleMs
        scheduler := .raf
        useOriginalScrollControls := some true } }

/-- The catalog construction, as a function so that regeneration can be
stated: RAF baseline, then event-driven without GPU, then with GPU. -/
def generateTestVariants (_ : Unit) : List TestVariant :=
  RAF_THROTTLE_VALUES.map (fun t => makeRafVariant t) ++
    DEBOUNCE_VALUES.flatMap
      (fun d => SCROLL_THROTTLE_VALUES.map fun t => makeEventVariant d t false) ++
    DEBOUNCE_VALUES.flatMap
      (fun d => SCROLL_THROTTLE_VALUES.map fun t => makeEventVariant d t true)

/-- Constant `TEST_VARIANTS`. -/
def TEST_VARIANTS : List TestVariant := generateTestVariants ()

-- ========================================================================================
-- Orchestrator gates (C5, C6)
-- ========================================================================================

/-- Constant `CONFIG.runsPerVariant` with `TUI_PERF_RUNS` unset: 10. -/
def runsPerVariant : Nat := 10

/-- The trial loop: each trial either yields metrics (`some`) or fails capture
(`none`); a success is pushed onto `runs`, a failure is logged and the loop
continues with the next trial. -/
def collectTrials (outcomes : List (Option PerformanceMetrics)) :
    List PerformanceMetrics :=
  outcomes.foldl
    (fun runs o =>
      match o with
      | some metrics => runs ++ [metrics]
      | none => runs)
    []

/-- Sample gate `expect(runs.length).toBeGreaterThan(CONFIG.runsPerVariant * 0.8)`:
the variant survives the sample gate iff strictly more than 80% of the
requested trials were collected. -/
def sampleGatePasses (collected n : Nat) : Bool :=
  decide ((collected : ℚ) > (n : ℚ) * (8 / 10))

/-- Constant `LIMITS.maxLayoutCount` (default, `TUI_PERF_MAX_LAYOUT_COUNT` unset). -/
def maxLayoutCount : ℚ := 500

/-- Constant `LIMITS.maxLayoutDurationMs` (default). -/
def maxLayoutDurationMs : ℚ := 200

/-- Constant `LIMITS.maxRecalcCount` (default). -/
def maxRecalcCount : ℚ := 2000

/-- Constant `LIMITS.maxRecalcDurationMs` (default). -/
def maxRecalcDurationMs : ℚ := 150

/-- The regression gate at the end of each variant: with `ENFORCE_LIMITS`
(`TUI_PERF_ENFORCE === '1'`) the four `expect(...).toBeLessThan(limit)`
assertions fail the variant when any summary mean is not strictly below its
ceiling; otherwise the breaches are only logged and nothing fails. -/
def regressionGateFails (enforce : Bool) (summary : StatisticalSummary) : Bool :=
  if enforce then
    !(decide (summary.layoutCount < maxLayoutCount)) ||
    !(decide (summary.layoutDuration < maxLayoutDurationMs)) ||
    !(decide (summary.recalcStyleCount < maxRecalcCount)) ||
    !(decide (summary.recalcStyleDuration < maxRecalcDurationMs))
  else false

-- ========================================================================================
-- Results store (C9)
-- ========================================================================================

/-- Structure `TestResult`: one stored entry per variant. -/
structure TestResult where
  variant : TestVariant
  runs : List PerformanceMetrics
  summary : StatisticalSummary
  timestamp : ℚ

/-- Function `ResultsManager.addResult`: `this.results.set(result.variant.name, result)`
on a JavaScript `Map`, modelled on an insertion-ordered association list:
an existing key keeps its position and gets the new value, a fresh key is
appended at the end. -/
def addResult (results : List (String × TestResult)) (result : TestResult) :
    List (String × TestResult) :=
  if results.any (fun p => p.1 == result.variant.name) then
    results.map fun p => if p.1 = result.variant.name then (p.1, result) else p
  else results ++ [(result.variant.name, result)]

/-- Lookup `Map.get`: first (only) entry stored under `name`. -/
def getResult (results : List (String × TestResult)) (name : String) :
    Option TestResult :=
  (results.find? (fun p => p.1 == name)).map Prod.snd

/-- All-zero summary used to build a concrete stored result. -/
def emptySummary : StatisticalSummary :=
  ⟨0, 0, 0, 0, (0, 0), (0, 0), (0, 0), (0, 0), 0, 0, 0, 0⟩

/-- A concrete stored result under the name `raf-t0ms`. -/
def sampleResult : TestResult := ⟨makeRafVariant 0, [], emptySummary, 0⟩

-- ========================================================================================
-- Helper lemmas: floor indices, sorted sample
-- ========================================================================================

lemma floor_mul_quarter (n : ℕ) : ⌊(n : ℚ) * (25 / 100)⌋₊ = n * 25 / 100 := by
  have h : (n : ℚ) * (25 / 100) = ((n * 25 : ℕ) : ℚ) / ((100 : ℕ) : ℚ) := by
    push_cast; ring
  rw [h, Nat.floor_div_nat, Nat.floor_natCast]

lemma floor_mul_three_quarters (n : ℕ) :
    ⌊(n : ℚ) * (75 / 100)⌋₊ = n * 75 / 100 := by
  have h : (n : ℚ) * (75 / 100) = ((n * 75 : ℕ) : ℚ) / ((100 : ℕ) : ℚ) := by
    push_cast; ring
  rw [h, Nat.floor_div_nat, Nat.floor_natCast]

lemma sortedLayoutDurations_length (runs : List PerformanceMetrics) :
    (sortedLayoutDurations runs).length = runs.length := by
  simp [sortedLayoutDurations]

lemma sortedLayoutDurations_sorted (runs : List PerformanceMetrics) :
    (sortedLayoutDurations runs).Sorted (· ≤ ·) :=
  List.sorted_insertionSort _ _

lemma sortedLayoutDurations_perm (runs : List PerformanceMetrics) :
    (sortedLayoutDurations runs).Perm (runs.map (·.layoutDuration)) :=
  List.perm_insertionSort _ _

/-- The two quartile values are ordered: `q1 ≤ q3`. -/
lemma q1Of_le_q3Of (runs : List PerformanceMetrics) (h4 : 4 ≤ runs.length) :
    q1Of runs ≤ q3Of runs := by
  have hlen := sortedLayoutDurations_length runs
  set ds := sortedLayoutDurations runs with hds
  have hn : 4 ≤ ds.length := by omega
  have hi1 : ⌊(ds.length : ℚ) * (25 / 100)⌋₊ < ds.length := by
    rw [floor_mul_quarter]; omega
  have hi3 : ⌊(ds.length : ℚ) * (75 / 100)⌋₊ < ds.length := by
    rw [floor_mul_three_quarters]; omega
  have hle : ⌊(ds.length : ℚ) * (25 / 100)⌋₊ ≤ ⌊(ds.length : ℚ) * (75 / 100)⌋₊ := by
    rw [floor_mul_quarter, floor_mul_three_quarters]; omega
  have hsorted := sortedLayoutDurations_sorted runs
  rw [q1Of, q3Of, ← hds, List.getD_eq_getElem _ _ hi1, List.getD_eq_getElem _ _ hi3]
  have := hsorted.rel_get_of_le (a := ⟨_, hi1⟩) (b := ⟨_, hi3⟩) hle
  simpa using this

/-- The element at the Q1 index is a member of the original sample. -/
lemma q1Of_mem (runs : List PerformanceMetrics) (h4 : 4 ≤ runs.length) :
    q1Of runs ∈ runs.map (·.layoutDuration) := by
  have hlen := sortedLayoutDurations_length runs
  have hi1 : ⌊((sortedLayoutDurations runs).length : ℚ) * (25 / 100)⌋₊ <
      (sortedLayoutDurations runs).length := by
    rw [floor_mul_quarter]; omega
  rw [q1Of, List.getD_eq_getElem _ _ hi1]
  exact (sortedLayoutDurations_perm runs).mem_iff.mp (List.getElem_mem hi1)

-- ========================================================================================
-- C2 / C10 theorems
-- ========================================================================================

lemma q1Of_eq_natIdx (trials : List PerformanceMetrics) :
    q1Of trials = (sortedLayoutDurations trials).getD (trials.length * 25 / 100) 0 := by
  rw [q1Of, sortedLayoutDurations_length, floor_mul_quarter]

lemma q3Of_eq_natIdx (trials : List PerformanceMetrics) :
    q3Of trials = (sortedLayoutDurations trials).getD (trials.length * 75 / 100) 0 := by
  rw [q3Of, sortedLayoutDurations_length, floor_mul_three_quarters]

/-- C2: below 4 trials `removeOutliers` is the identity; at `n ≥ 4` it agrees
with the specification's description (sorted primary metric, Q1/Q3 at the
direct floor indices, inclusive IQR bounds, whole-trial filtering in original
order); the result is always a sublist of the input (whole units, original
order). -/
theorem removeOutliers_meets_spec (trials : List PerformanceMetrics) :
    removeOutliers trials = removeOutliersSpec trials ∧
    (trials.length < 4 → removeOutliers trials = trials) ∧
    (removeOutliers trials).Sublist trials := by
  refine ⟨?_, ?_, ?_⟩
  · by_cases h : trials.length < 4
    · simp [removeOutliers, removeOutliersSpec, h]
    · simp only [removeOutliers, removeOutliersSpec, h, if_false, lowerBoundOf,
        upperBoundOf, q1Of_eq_natIdx, q3Of_eq_natIdx, sortedLayoutDurations]
  · intro h
    simp [removeOutliers, h]
  · by_cases h : trials.length < 4
    · simp [removeOutliers, h]
    · rw [removeOutliers, if_neg h]
      exact List.filter_sublist _

/-- Closed instance of `removeOutliers_meets_spec` at a concrete 5-trial list. -/
theorem removeOutliers_meets_spec_witness :
    removeOutliers
        [⟨1, 1, 10, 1⟩, ⟨1, 1, 12, 1⟩, ⟨1, 1, 11, 1⟩, ⟨1, 1, 13, 1⟩, ⟨1, 1, 50, 1⟩] =
      removeOutliersSpec
        [⟨1, 1, 10, 1⟩, ⟨1, 1, 12, 1⟩, ⟨1, 1, 11, 1⟩, ⟨1, 1, 13, 1⟩, ⟨1, 1, 50, 1⟩] :=
  (removeOutliers_meets_spec _).1

/-- C10: `removeOutliers` never empties a non-empty trial list (the trial
realizing Q1 always survives the IQR bounds), so the sample size that
`calculateStatistics` divides by is non-zero. -/
theorem removeOutliers_ne_nil (runs : List PerformanceMetrics) (h : runs ≠ []) :
    removeOutliers runs ≠ [] ∧ ((removeOutliers runs).length : ℚ) ≠ 0 := by
  have hmain : removeOutliers runs ≠ [] := by
    by_cases h4 : runs.length < 4
    · simpa [removeOutliers, h4] using h
    · push_neg at h4
      obtain ⟨x, hx_mem, hx⟩ := List.mem_map.mp (q1Of_mem runs h4)
      have hq13 := q1Of_le_q3Of runs h4
      have hkeep : (decide (lowerBoundOf runs ≤ x.layoutDuration) &&
          decide (x.layoutDuration ≤ upperBoundOf runs)) = true := by
        rw [hx]
        simp only [Bool.and_eq_true, decide_eq_true_iff]
        exact ⟨by rw [lowerBoundOf]; linarith, by rw [upperBoundOf]; linarith⟩
      have hx_filtered : x ∈ removeOutliers runs := by
        rw [removeOutliers, if_neg (by omega)]
        exact List.mem_filter.mpr ⟨hx_mem, hkeep⟩
      exact List.ne_nil_of_mem hx_filtered
  refine ⟨hmain, ?_⟩
  have hlen : (removeOutliers runs).length ≠ 0 := by
    simpa [List.length_eq_zero] using hmain
  exact_mod_cast hlen

/-- Closed instance of `removeOutliers_ne_nil` at a concrete singleton. -/
theorem removeOutliers_ne_nil_witness :
    ([(⟨1, 2, 3, 4⟩ : PerformanceMetrics)] ≠ []) ∧
      (removeOutliers [⟨1, 2, 3, 4⟩] ≠ [] ∧
        ((removeOutliers [(⟨1, 2, 3, 4⟩ : PerformanceMetrics)]).length : ℚ) ≠ 0) :=
  ⟨by simp, removeOutliers_ne_nil _ (by simp)⟩

-- ========================================================================================
-- Constant-sample lemmas (C7)
-- ========================================================================================

lemma q3Of_mem (runs : List PerformanceMetrics) (h4 : 4 ≤ runs.length) :
    q3Of runs ∈ runs.map (·.layoutDuration) := by
  have hlen := sortedLayoutDurations_length runs
  have hi3 : ⌊((sortedLayoutDurations runs).length : ℚ) * (75 / 100)⌋₊ <
      (sortedLayoutDurations runs).length := by
    rw [floor_mul_three_quarters]; omega
  rw [q3Of, List.getD_eq_getElem _ _ hi3]
  exact (sortedLayoutDurations_perm runs).mem_iff.mp (List.getElem_mem hi3)

lemma foldl_add_const (c : ℚ) :
    ∀ (l : List ℚ), (∀ x ∈ l, x = c) → ∀ init : ℚ,
      l.foldl (fun a b => a + b) init = init + l.length * c
  | [], _, init => by simp
  | x :: xs, hall, init => by
    have hx : x = c := hall x (List.mem_cons_self _ _)
    have ih := foldl_add_const c xs (fun y hy => hall y (List.mem_cons_of_mem _ hy))
    rw [List.foldl_cons, hx, ih (init + c), List.length_cons]
    push_cast
    ring

lemma foldl_sq_const (c : ℚ) :
    ∀ (l : List ℚ), (∀ x ∈ l, x = c) → ∀ init : ℚ,
      l.foldl (fun a b => a + (b - c) ^ 2) init = init
  | [], _, init => by simp
  | x :: xs, hall, init => by
    have hx : x = c := hall x (List.mem_cons_self _ _)
    have ih := foldl_sq_const c xs (fun y hy => hall y (List.mem_cons_of_mem _ hy))
    simp [List.foldl_cons, hx, ih]

lemma mean_const (l : List ℚ) (c : ℚ) (hne : l ≠ []) (hall : ∀ x ∈ l, x = c) :
    mean l = c := by
  have hn : (l.length : ℚ) ≠ 0 := by
    have : l.length ≠ 0 := by simpa [List.length_eq_zero] using hne
    exact_mod_cast this
  rw [mean, foldl_add_const c l hall 0]
  field_simp

lemma variance_const (l : List ℚ) (c : ℚ) (hne : l ≠ []) (hall : ∀ x ∈ l, x = c) :
    variance l = 0 := by
  rw [variance, mean_const l c hne hall, foldl_sq_const c l hall 0]
  simp

lemma stats_const (l : List ℚ) (c : ℚ) (hne : l ≠ []) (hall : ∀ x ∈ l, x = c) :
    standardDeviation l = 0 ∧ mean l = c ∧
      confidenceInterval l = ((c : ℝ), (c : ℝ)) := by
  have hsd : standardDeviation l = 0 := by
    rw [standardDeviation, variance_const l c hne hall]
    simp
  have hmean : mean l = c := mean_const l c hne hall
  refine ⟨hsd, hmean, ?_⟩
  rw [confidenceInterval, marginOfError, hsd, hmean]
  simp

/-- The IQR filter keeps everything when all trials are identical. -/
lemma removeOutliers_const (runs : List PerformanceMetrics)
    (t : PerformanceMetrics) (hall : ∀ x ∈ runs, x = t) :
    removeOutliers runs = runs := by
  by_cases h4 : runs.length < 4
  · simp [removeOutliers, h4]
  · push_neg at h4
    have hq1 : q1Of runs = t.layoutDuration := by
      obtain ⟨x, hx_mem, hx⟩ := List.mem_map.mp (q1Of_mem runs h4)
      rw [← hx, hall x hx_mem]
    have hq3 : q3Of runs = t.layoutDuration := by
      obtain ⟨x, hx_mem, hx⟩ := List.mem_map.mp (q3Of_mem runs h4)
      rw [← hx, hall x hx_mem]
    rw [removeOutliers, if_neg (by omega)]
    apply List.filter_eq_self.mpr
    intro a ha
    rw [hall a ha]
    simp [lowerBoundOf, upperBoundOf, hq1, hq3]

lemma calculateStatistics_def (runs : List PerformanceMetrics) :
    calculateStatistics runs =
      { layoutCount := mean ((removeOutliers runs).map (·.layoutCount))
        layoutDuration := mean ((removeOutliers runs).map (·.layoutDuration))
        recalcStyleCount := mean ((removeOutliers runs).map (·.recalcStyleCount))
        recalcStyleDuration := mean ((removeOutliers runs).map (·.recalcStyleDuration))
        confidenceLayoutCount :=
          confidenceInterval ((removeOutliers runs).map (·.layoutCount))
        confidenceLayoutDuration :=
          confidenceInterval ((removeOutliers runs).map (·.layoutDuration))
        confidenceRecalcStyleCount :=
          confidenceInterval ((removeOutliers runs).map (·.recalcStyleCount))
        confidenceRecalcStyleDuration :=
          confidenceInterval ((removeOutliers runs).map (·.recalcStyleDuration))
        sdLayoutCount := standardDeviation ((removeOutliers runs).map (·.layoutCount))
        sdLayoutDuration :=
          standardDeviation ((removeOutliers runs).map (·.layoutDuration))
        sdRecalcStyleCount :=
          standardDeviation ((removeOutliers runs).map (·.recalcStyleCount))
        sdRecalcStyleDuration :=
          standardDeviation ((removeOutliers runs).map (·.recalcStyleDuration)) } :=
  rfl

/-- C7: on a constant trial sample (all trials identical, list non-empty)
`calculateStatistics` yields standard deviation 0 for each of the four fields
and confidence intervals collapsed to the constant value of each field. -/
theorem calculateStatistics_const_sample (runs : List PerformanceMetrics)
    (t : PerformanceMetrics) (hne : runs ≠ []) (hall : ∀ x ∈ runs, x = t) :
    (calculateStatistics runs).sdLayoutCount = 0 ∧
    (calculateStatistics runs).sdLayoutDuration = 0 ∧
    (calculateStatistics runs).sdRecalcStyleCount = 0 ∧
    (calculateStatistics runs).sdRecalcStyleDuration = 0 ∧
    (calculateStatistics runs).confidenceLayoutCount =
      ((t.layoutCount : ℝ), (t.layoutCount : ℝ)) ∧
    (calculateStatistics runs).confidenceLayoutDuration =
      ((t.layoutDuration : ℝ), (t.layoutDuration : ℝ)) ∧
    (calculateStatistics runs).confidenceRecalcStyleCount =
      ((t.recalcStyleCount : ℝ), (t.recalcStyleCount : ℝ)) ∧
    (calculateStatistics runs).confidenceRecalcStyleDuration =
      ((t.recalcStyleDuration : ℝ), (t.recalcStyleDuration : ℝ)) := by
  have hro : removeOutliers runs = runs := removeOutliers_const runs t hall
  have hconst : ∀ f : PerformanceMetrics → ℚ, ∀ x ∈ runs.map f, x = f t := by
    intro f x hx
    obtain ⟨a, ha, rfl⟩ := List.mem_map.mp hx
    rw [hall a ha]
  have hnem : ∀ f : PerformanceMetrics → ℚ, runs.map f ≠ [] := by
    intro f h
    exact hne (List.map_eq_nil_iff.mp h)
  obtain ⟨s1, _, c1⟩ :=
    stats_const (runs.map (·.layoutCount)) t.layoutCount (hnem _) (hconst _)
  obtain ⟨s2, _, c2⟩ :=
    stats_const (runs.map (·.layoutDuration)) t.layoutDuration (hnem _) (hconst _)
  obtain ⟨s3, _, c3⟩ :=
    stats_const (runs.map (·.recalcStyleCount)) t.recalcStyleCount (hnem _) (hconst _)
  obtain ⟨s4, _, c4⟩ :=
    stats_const (runs.map (·.recalcStyleDuration)) t.recalcStyleDuration
      (hnem _) (hconst _)
  rw [calculateStatistics_def, hro]
  exact ⟨s1, s2, s3, s4, c1, c2, c3, c4⟩

/-- Closed instance of `calculateStatistics_const_sample` at a singleton trial list. -/
theorem calculateStatistics_const_sample_witness :
    (calculateStatistics [⟨2, 3, 4, 5⟩]).sdLayoutCount = 0 ∧
    (calculateStatistics [⟨2, 3, 4, 5⟩]).sdLayoutDuration = 0 ∧
    (calculateStatistics [⟨2, 3, 4, 5⟩]).sdRecalcStyleCount = 0 ∧
    (calculateStatistics [⟨2, 3, 4, 5⟩]).sdRecalcStyleDuration = 0 ∧
    (calculateStatistics [⟨2, 3, 4, 5⟩]).confidenceLayoutCount =
      (((⟨2, 3, 4, 5⟩ : PerformanceMetrics).layoutCount : ℝ),
        ((⟨2, 3, 4, 5⟩ : PerformanceMetrics).layoutCount : ℝ)) ∧
    (calculateStatistics [⟨2, 3, 4, 5⟩]).confidenceLayoutDuration =
      (((⟨2, 3, 4, 5⟩ : PerformanceMetrics).layoutDuration : ℝ),
        ((⟨2, 3, 4, 5⟩ : PerformanceMetrics).layoutDuration : ℝ)) ∧
    (calculateStatistics [⟨2, 3, 4, 5⟩]).confidenceRecalcStyleCount =
      (((⟨2, 3, 4, 5⟩ : PerformanceMetrics).recalcStyleCount : ℝ),
        ((⟨2, 3, 4, 5⟩ : PerformanceMetrics).recalcStyleCount : ℝ)) ∧
    (calculateStatistics [⟨2, 3, 4, 5⟩]).confidenceRecalcStyleDuration =
      (((⟨2, 3, 4, 5⟩ : PerformanceMetrics).recalcStyleDuration : ℝ),
        ((⟨2, 3, 4, 5⟩ : PerformanceMetrics).recalcStyleDuration : ℝ)) :=
  calculateStatistics_const_sample [⟨2, 3, 4, 5⟩] ⟨2, 3, 4, 5⟩ (by simp)
    (by simp)

/-- C1: on `layoutDuration` samples `[10, 12, 11, 13, 50]` the engine sorts to
`[10, 11, 12, 13, 50]`, takes Q1 = 11 and Q3 = 13 (IQR 2, bounds `[8, 16]`),
drops the trial at 50, and over the remaining four samples reports mean 23/2,
population stddev `sqrt(5/4) ≈ 1.118`, margin `≈ 1.096` and confidence
interval `≈ [10.40, 12.60]`. -/
theorem calculateStatistics_sample_scenario :
    sortedLayoutDurations sampleTrials = [10, 11, 12, 13, 50] ∧
    q1Of sampleTrials = 11 ∧
    q3Of sampleTrials = 13 ∧
    q3Of sampleTrials - q1Of sampleTrials = 2 ∧
    lowerBoundOf sampleTrials = 8 ∧
    upperBoundOf sampleTrials = 16 ∧
    removeOutliers sampleTrials =
      [⟨0, 0, 10, 0⟩, ⟨0, 0, 12, 0⟩, ⟨0, 0, 11, 0⟩, ⟨0, 0, 13, 0⟩] ∧
    (calculateStatistics sampleTrials).layoutDuration = 23 / 2 ∧
    (calculateStatistics sampleTrials).sdLayoutDuration = Real.sqrt (5 / 4) ∧
    |(calculateStatistics sampleTrials).sdLayoutDuration - 1.118| < 1 / 1000 ∧
    |marginOfError ((removeOutliers sampleTrials).map (·.layoutDuration)) - 1.096| <
      1 / 1000 ∧
    |(calculateStatistics sampleTrials).confidenceLayoutDuration.1 - 10.40| < 1 / 100 ∧
    |(calculateStatistics sampleTrials).confidenceLayoutDuration.2 - 12.60| < 1 / 100 := by
  have hsorted : sortedLayoutDurations sampleTrials = [10, 11, 12, 13, 50] := by
    norm_num [sortedLayoutDurations, sampleTrials, List.insertionSort,
      List.orderedInsert]
  have hq1 : q1Of sampleTrials = 11 := by
    rw [q1Of_eq_natIdx, hsorted]
    norm_num [sampleTrials, List.getD]
  have hq3 : q3Of sampleTrials = 13 := by
    rw [q3Of_eq_natIdx, hsorted]
    norm_num [sampleTrials, List.getD]
  have hlb : lowerBoundOf sampleTrials = 8 := by
    rw [lowerBoundOf, hq1, hq3]; norm_num
  have hub : upperBoundOf sampleTrials = 16 := by
    rw [upperBoundOf, hq1, hq3]; norm_num
  have hro : removeOutliers sampleTrials =
      [⟨0, 0, 10, 0⟩, ⟨0, 0, 12, 0⟩, ⟨0, 0, 11, 0⟩, ⟨0, 0, 13, 0⟩] := by
    rw [removeOutliers, if_neg (by norm_num [sampleTrials])]
    simp only [hlb, hub]
    simp only [sampleTrials]
    norm_num [List.filter]
  have hmap : (removeOutliers sampleTrials).map (·.layoutDuration) =
      [10, 12, 11, 13] := by
    rw [hro]
    simp
  have hmean : mean [10, 12, 11, 13] = 23 / 2 := by
    norm_num [mean]
  have hvar : variance [10, 12, 11, 13] = 5 / 4 := by
    norm_num [variance, mean]
  have hsd : standardDeviation [10, 12, 11, 13] = Real.sqrt (5 / 4) := by
    rw [standardDeviation, hvar]
    norm_num
  have hs2 : Real.sqrt (5 / 4) ^ 2 = (5 : ℝ) / 4 :=
    Real.sq_sqrt (by norm_num)
  have hs0 : (0 : ℝ) ≤ Real.sqrt (5 / 4) := Real.sqrt_nonneg _
  have hsubnd : 1.118 < Real.sqrt (5 / 4) ∧ Real.sqrt (5 / 4) < 1.1181 := by
    constructor <;> nlinarith [hs2, hs0]
  have hmargin : marginOfError [10, 12, 11, 13] =
      (196 / 100 : ℝ) * Real.sqrt (5 / 4) / 2 := by
    rw [marginOfError, hsd]
    have h4 : Real.sqrt ((([10, 12, 11, 13] : List ℚ).length : ℕ) : ℝ) = 2 := by
      rw [show ((([10, 12, 11, 13] : List ℚ).length : ℕ) : ℝ) = 2 ^ 2 by norm_num,
        Real.sqrt_sq (by norm_num)]
    rw [h4]
    norm_num [confidenceLevel]
  have hmarginbnd : 1.095 < marginOfError [10, 12, 11, 13] ∧
      marginOfError [10, 12, 11, 13] < 1.0958 := by
    rw [hmargin]
    constructor <;> nlinarith [hsubnd.1, hsubnd.2]
  have hci : confidenceInterval [10, 12, 11, 13] =
      ((23 / 2 : ℝ) - marginOfError [10, 12, 11, 13],
        (23 / 2 : ℝ) + marginOfError [10, 12, 11, 13]) := by
    rw [confidenceInterval, hmean]
    norm_num
  refine ⟨hsorted, hq1, hq3, by rw [hq1, hq3]; norm_num, hlb, hub, hro, ?_, ?_, ?_, ?_, ?_, ?_⟩
  · rw [calculateStatistics_def, hmap, hmean]
  · rw [calculateStatistics_def, hmap, hsd]
  · rw [calculateStatistics_def, hmap, hsd, abs_lt]
    constructor <;> nlinarith [hsubnd.1, hsubnd.2]
  · rw [hmap, abs_lt]
    constructor <;> nlinarith [hmarginbnd.1, hmarginbnd.2]
  · rw [calculateStatistics_def, hmap, hci, abs_lt]
    constructor <;> simp only [] <;> nlinarith [hmarginbnd.1, hmarginbnd.2]
  · rw [calculateStatistics_def, hmap, hci, abs_lt]
    constructor <;> simp only [] <;> nlinarith [hmarginbnd.1, hmarginbnd.2]

/-- C8: confidence intervals are exactly
`[mean - z*stddev/sqrt(n), mean + z*stddev/sqrt(n)]` with no clamping to
non-negativity: on `layoutDuration` samples `[0, 0, 10]` (all trial values
`≥ 0`) the returned lower bound is strictly negative. -/
theorem confidenceInterval_not_clamped :
    (∀ runs : List PerformanceMetrics,
      (calculateStatistics runs).confidenceLayoutDuration =
        ((mean ((removeOutliers runs).map (·.layoutDuration)) : ℝ) -
            (confidenceLevel : ℝ) *
              standardDeviation ((removeOutliers runs).map (·.layoutDuration)) /
              Real.sqrt (((removeOutliers runs).map (·.layoutDuration)).length : ℝ),
          (mean ((removeOutliers runs).map (·.layoutDuration)) : ℝ) +
            (confidenceLevel : ℝ) *
              standardDeviation ((removeOutliers runs).map (·.layoutDuration)) /
              Real.sqrt (((removeOutliers runs).map (·.layoutDuration)).length : ℝ))) ∧
    (∀ r ∈ smallHighVarianceTrials,
      0 ≤ r.layoutCount ∧ 0 ≤ r.recalcStyleCount ∧ 0 ≤ r.layoutDuration ∧
        0 ≤ r.recalcStyleDuration) ∧
    (calculateStatistics smallHighVarianceTrials).confidenceLayoutDuration.1 < 0 := by
  refine ⟨fun runs => by rw [calculateStatistics_def]; rfl, ?_, ?_⟩
  · intro r hr
    fin_cases hr <;> norm_num
  · have hro : removeOutliers smallHighVarianceTrials = smallHighVarianceTrials := by
      rw [removeOutliers,
        if_pos (show smallHighVarianceTrials.length < 4 by
          norm_num [smallHighVarianceTrials])]
    have hmap : (removeOutliers smallHighVarianceTrials).map (·.layoutDuration) =
        [0, 0, 10] := by
      rw [hro]
      simp [smallHighVarianceTrials]
    have hmean : mean [0, 0, 10] = 10 / 3 := by norm_num [mean]
    have hvar : variance [0, 0, 10] = 200 / 9 := by norm_num [variance, mean]
    have hsd : standardDeviation [0, 0, 10] = Real.sqrt (200 / 9) := by
      rw [standardDeviation, hvar]
      norm_num
    have hlen : Real.sqrt ((([0, 0, 10] : List ℚ).length : ℕ) : ℝ) = Real.sqrt 3 := by
      norm_num
    rw [calculateStatistics_def]
    simp only [hmap]
    rw [confidenceInterval, marginOfError, hsd, hmean]
    have h1 : Real.sqrt (200 / 9) ^ 2 = (200 : ℝ) / 9 := Real.sq_sqrt (by norm_num)
    have h1n : (0 : ℝ) ≤ Real.sqrt (200 / 9) := Real.sqrt_nonneg _
    have h3 : Real.sqrt ((([0, 0, 10] : List ℚ).length : ℕ) : ℝ) ^ 2 = (3 : ℝ) := by
      rw [hlen]
      exact Real.sq_sqrt (by norm_num)
    have h3p : (0 : ℝ) < Real.sqrt ((([0, 0, 10] : List ℚ).length : ℕ) : ℝ) := by
      rw [hlen]
      exact Real.sqrt_pos.mpr (by norm_num)
    have key : ((10 / 3 : ℚ) : ℝ) <
        (confidenceLevel : ℝ) * Real.sqrt (200 / 9) /
          Real.sqrt ((([0, 0, 10] : List ℚ).length : ℕ) : ℝ) := by
      rw [lt_div_iff₀ h3p]
      have hz : (confidenceLevel : ℝ) = 196 / 100 := by
        norm_num [confidenceLevel]
      rw [hz]
      push_cast
      nlinarith [h1, h3, h1n, h3p]
    simp only []
    linarith [key]

lemma addMetrics_emptyMetrics_right (m : PerformanceMetrics) :
    addMetrics m emptyMetrics = m := by
  rcases m with ⟨a, b, c, d⟩
  simp [addMetrics, emptyMetrics]

lemma addMetrics_assoc (a b c : PerformanceMetrics) :
    addMetrics (addMetrics a b) c = addMetrics a (addMetrics b c) := by
  rcases a with ⟨a1, a2, a3, a4⟩
  rcases b with ⟨b1, b2, b3, b4⟩
  rcases c with ⟨c1, c2, c3, c4⟩
  simp only [addMetrics, PerformanceMetrics.mk.injEq]
  exact ⟨by ring, by ring, by ring, by ring⟩

lemma addMetrics_comm (a b : PerformanceMetrics) :
    addMetrics a b = addMetrics b a := by
  rcases a with ⟨a1, a2, a3, a4⟩
  rcases b with ⟨b1, b2, b3, b4⟩
  simp only [addMetrics, PerformanceMetrics.mk.injEq]
  exact ⟨by ring, by ring, by ring, by ring⟩

/-- Each loop iteration adds a contribution that depends only on the event. -/
lemma processEvent_eq (m : PerformanceMetrics) (e : PerformanceEvent) :
    processEvent m e = addMetrics m (processEvent emptyMetrics e) := by
  rcases m with ⟨a, b, c, d⟩
  simp only [processEvent, emptyMetrics]
  split_ifs <;>
    simp only [addMetrics, PerformanceMetrics.mk.injEq] <;>
    exact ⟨by ring, by ring, by ring, by ring⟩

lemma foldl_processEvent (l : List PerformanceEvent) :
    ∀ m : PerformanceMetrics, l.foldl processEvent m = addMetrics m (extractMetrics l) := by
  induction l with
  | nil => intro m; simp [extractMetrics, addMetrics_emptyMetrics_right]
  | cons e l ih =>
    intro m
    have hx : extractMetrics (e :: l) =
        addMetrics (processEvent emptyMetrics e) (extractMetrics l) := by
      rw [extractMetrics, List.foldl_cons, ih (processEvent emptyMetrics e)]
    rw [List.foldl_cons, ih (processEvent m e), hx, processEvent_eq m e,
      addMetrics_assoc]

/-- C3: `extractMetrics` is linear under list concatenation (field-wise sum)
and invariant under permutation of the event list. -/
theorem extractMetrics_linear_perm_invariant
    (a b l₁ l₂ : List PerformanceEvent) (h : l₁.Perm l₂) :
    extractMetrics (a ++ b) = addMetrics (extractMetrics a) (extractMetrics b) ∧
    extractMetrics l₁ = extractMetrics l₂ := by
  constructor
  · rw [extractMetrics, List.foldl_append, ← extractMetrics, foldl_processEvent]
  · refine h.foldl_eq' ?_ emptyMetrics
    intro x _ y _ z
    rw [processEvent_eq (processEvent z x) y, processEvent_eq z x,
      processEvent_eq (processEvent z y) x, processEvent_eq z y,
      addMetrics_assoc, addMetrics_assoc,
      addMetrics_comm (processEvent emptyMetrics x)]

/-- Closed instance of `extractMetrics_linear_perm_invariant` on two concrete
trace events (the permutation is an adjacent swap). -/
theorem extractMetrics_linear_perm_invariant_witness :
    extractMetrics ([sampleLayoutEvent] ++ [sampleRecalcEvent]) =
      addMetrics (extractMetrics [sampleLayoutEvent])
        (extractMetrics [sampleRecalcEvent]) ∧
    extractMetrics [sampleLayoutEvent, sampleRecalcEvent] =
      extractMetrics [sampleRecalcEvent, sampleLayoutEvent] :=
  extractMetrics_linear_perm_invariant [sampleLayoutEvent] [sampleRecalcEvent]
    [sampleLayoutEvent, sampleRecalcEvent] [sampleRecalcEvent, sampleLayoutEvent]
    (List.Perm.swap sampleRecalcEvent sampleLayoutEvent [])

/-- C4: regenerating the catalog is deterministic; it has exactly 114 entries
with pairwise-distinct names, laid out as 6 RAF-baseline variants
(scheduler `raf`, debounce 0, original scroll controls, throttles
`0,2,...,10`), then the 54-variant debounce-major cross product
`{50..100 step 10} × {0..16 step 2}` without GPU, then the identical
54-variant cross product with `useGpuAcceleration = true`. -/
theorem testVariants_catalog :
    generateTestVariants () = generateTestVariants () ∧
    TEST_VARIANTS.length = 114 ∧
    (TEST_VARIANTS.map (·.name)).Nodup ∧
    RAF_THROTTLE_VALUES = [0, 2, 4, 6, 8, 10] ∧
    DEBOUNCE_VALUES = [50, 60, 70, 80, 90, 100] ∧
    SCROLL_THROTTLE_VALUES = [0, 2, 4, 6, 8, 10, 12, 14, 16] ∧
    TEST_VARIANTS.take 6 = RAF_THROTTLE_VALUES.map (fun t => makeRafVariant t) ∧
    (∀ v ∈ TEST_VARIANTS.take 6,
      v.config.scheduler = Scheduler.raf ∧ v.config.debounceMs = 0 ∧
        v.config.useOriginalScrollControls = some true) ∧
    (TEST_VARIANTS.take 6).map (·.config.throttleMs) = [0, 2, 4, 6, 8, 10] ∧
    (TEST_VARIANTS.drop 6).take 54 =
      DEBOUNCE_VALUES.flatMap
        (fun d => SCROLL_THROTTLE_VALUES.map fun t => makeEventVariant d t false) ∧
    (∀ v ∈ (TEST_VARIANTS.drop 6).take 54,
      v.config.scheduler = Scheduler.microtask ∧
        v.config.useGpuAcceleration = none) ∧
    TEST_VARIANTS.drop 60 =
      DEBOUNCE_VALUES.flatMap
        (fun d => SCROLL_THROTTLE_VALUES.map fun t => makeEventVariant d t true) ∧
    (∀ v ∈ TEST_VARIANTS.drop 60,
      v.config.scheduler = Scheduler.microtask ∧
        v.config.useGpuAcceleration = some true) ∧
    ((TEST_VARIANTS.drop 6).take 54).map
        (fun v => (v.config.debounceMs, v.config.throttleMs)) =
      DEBOUNCE_VALUES.flatMap (fun d => SCROLL_THROTTLE_VALUES.map fun t => (d, t)) ∧
    (TEST_VARIANTS.drop 60).map
        (fun v => (v.config.debounceMs, v.config.throttleMs)) =
      DEBOUNCE_VALUES.flatMap (fun d => SCROLL_THROTTLE_VALUES.map fun t => (d, t)) := by
  refine ⟨rfl, by decide, by decide, by decide, by decide, by decide, by decide,
    by decide, by decide, by decide, by decide, by decide, by decide, by decide,
    by decide⟩

/-- C5: after the trial loop the variant fails the sample gate exactly when
the number of collected trials is `≤ 0.8 * N`; a failed trial contributes
nothing but never aborts the loop (the remaining outcomes are still
processed); in particular 10 all-failing trials fail the gate at the default
`N = 10`. -/
theorem sampleGate_spec (outcomes rest : List (Option PerformanceMetrics))
    (n : Nat) :
    (sampleGatePasses (collectTrials outcomes).length n = false ↔
      ((collectTrials outcomes).length : ℚ) ≤ (n : ℚ) * (8 / 10)) ∧
    collectTrials (none :: rest) = collectTrials rest ∧
    sampleGatePasses (collectTrials (List.replicate 10 none)).length
      runsPerVariant = false := by
  refine ⟨?_, rfl, ?_⟩
  · rw [sampleGatePasses, decide_eq_false_iff_not, gt_iff_lt, not_lt]
  · have h0 : (collectTrials (List.replicate 10 none)).length = 0 := rfl
    rw [h0, sampleGatePasses, decide_eq_false_iff_not, runsPerVariant]
    norm_num

/-- C6: with enforcement on, the variant fails iff some summary mean meets or
exceeds its own ceiling (independent ceilings per metric); with enforcement
off, the gate never fails a variant. -/
theorem regressionGate_spec (summary : StatisticalSummary) :
    (regressionGateFails true summary = true ↔
      (maxLayoutCount ≤ summary.layoutCount ∨
        maxLayoutDurationMs ≤ summary.layoutDuration ∨
        maxRecalcCount ≤ summary.recalcStyleCount ∨
        maxRecalcDurationMs ≤ summary.recalcStyleDuration)) ∧
    regressionGateFails false summary = false := by
  constructor
  · simp [regressionGateFails, not_lt, or_assoc]
  · rfl

lemma addResult_keys_present (results : List (String × TestResult))
    (result : TestResult)
    (h : results.any (fun p => p.1 == result.variant.name) = true) :
    (addResult results result).map Prod.fst = results.map Prod.fst := by
  rw [addResult, if_pos h, List.map_map]
  congr 1
  funext p
  by_cases hp : p.1 = result.variant.name <;> simp [hp]

lemma addResult_keys_absent (results : List (String × TestResult))
    (result : TestResult)
    (h : results.any (fun p => p.1 == result.variant.name) = false) :
    (addResult results result).map Prod.fst =
      results.map Prod.fst ++ [result.variant.name] := by
  rw [addResult, if_neg (by rw [h]; exact Bool.false_ne_true), List.map_append]
  rfl

lemma addResult_keys_nodup (results : List (String × TestResult))
    (result : TestResult) (hnodup : (results.map Prod.fst).Nodup) :
    ((addResult results result).map Prod.fst).Nodup := by
  by_cases h : results.any (fun p => p.1 == result.variant.name) = true
  · rw [addResult_keys_present results result h]
    exact hnodup
  · rw [Bool.not_eq_true] at h
    rw [addResult_keys_absent results result h]
    refine hnodup.append (List.nodup_singleton _) ?_
    intro k hk hk1
    rw [List.mem_singleton] at hk1
    obtain ⟨p, hp, hpk⟩ := List.mem_map.mp hk
    rw [List.any_eq_false] at h
    exact h p hp (by rw [beq_iff_eq, hpk, hk1])

lemma getResult_addResult_self (results : List (String × TestResult))
    (result : TestResult) :
    getResult (addResult results result) result.variant.name = some result := by
  by_cases h : results.any (fun p => p.1 == result.variant.name) = true
  · rw [addResult, if_pos h, getResult]
    induction results with
    | nil => simp at h
    | cons p ps ih =>
      rw [List.any_cons, Bool.or_eq_true] at h
      by_cases hp : p.1 = result.variant.name
      · simp [List.find?_cons, hp]
      · have htail : ps.any (fun q => q.1 == result.variant.name) = true := by
          rcases h with h | h
          · exact absurd (beq_iff_eq.mp h) hp
          · exact h
        simp only [List.map_cons, if_neg hp, List.find?_cons,
          beq_eq_false_iff_ne.mpr hp]
        exact ih htail
  · rw [Bool.not_eq_true] at h
    rw [addResult, if_neg (by rw [h]; exact Bool.false_ne_true), getResult,
      List.find?_append]
    have hnone : results.find? (fun p => p.1 == result.variant.name) = none := by
      rw [List.find?_eq_none]
      intro p hp
      rw [List.any_eq_false] at h
      exact h p hp
    rw [hnone, Option.none_or, List.find?_cons, beq_self_eq_true]
    rfl

lemma getResult_addResult_other (results : List (String × TestResult))
    (result : TestResult) (m : String) (hm : m ≠ result.variant.name) :
    getResult (addResult results result) m = getResult results m := by
  by_cases h : results.any (fun p => p.1 == result.variant.name) = true
  · rw [addResult, if_pos h, getResult, getResult]
    induction results with
    | nil => rfl
    | cons p ps ih =>
      by_cases hp : p.1 = result.variant.name
      · have hpm : (p.1 == m) = false := by
          rw [beq_eq_false_iff_ne, hp]
          exact fun hc => hm hc.symm
        simp only [List.map_cons, if_pos hp, List.find?_cons, hpm]
        by_cases htail : ps.any (fun q => q.1 == result.variant.name) = true
        · exact ih htail
        · rw [Bool.not_eq_true] at htail
          rw [List.any_eq_false] at htail
          have : ps.map (fun q => if q.1 = result.variant.name then (q.1, result) else q) =
              ps.map id := by
            apply List.map_congr_left
            intro q hq
            rw [if_neg (fun hc => htail q hq (beq_iff_eq.mpr hc))]
            rfl
          rw [this, List.map_id]
      · simp only [List.map_cons, if_neg hp, List.find?_cons]
        cases hpm : (p.1 == m)
        · by_cases htail : ps.any (fun q => q.1 == result.variant.name) = true
          · exact ih htail
          · rw [Bool.not_eq_true] at htail
            rw [List.any_eq_false] at htail
            have : ps.map (fun q => if q.1 = result.variant.name then (q.1, result) else q) =
                ps.map id := by
              apply List.map_congr_left
              intro q hq
              rw [if_neg (fun hc => htail q hq (beq_iff_eq.mpr hc))]
              rfl
            rw [this, List.map_id]
        · rfl
  · rw [Bool.not_eq_true] at h
    rw [addResult, if_neg (by rw [h]; exact Bool.false_ne_true), getResult,
      getResult, List.find?_append]
    have hsingle : ([(result.variant.name, result)].find? (fun p => p.1 == m)) =
        none := by
      rw [List.find?_cons, beq_eq_false_iff_ne.mpr (fun hc => hm hc.symm)]
      rfl
    rw [hsingle, Option.or_none]

lemma foldl_addResult_nodup (rs : List TestResult) :
    ∀ store : List (String × TestResult), (store.map Prod.fst).Nodup →
      (((rs.foldl addResult store).map Prod.fst)).Nodup := by
  induction rs with
  | nil => intro store h; exact h
  | cons r rs ih =>
    intro store h
    exact ih (addResult store r) (addResult_keys_nodup store r h)

/-- C9: the results store keeps exactly one entry per variant name in
insertion order: a write under an existing name replaces that entry in place
(last-writer-wins) without touching any other name's entry or the key order,
a write under a fresh name appends, key uniqueness is preserved by every
write (and holds for any sequence of writes from the empty store). -/
theorem resultsStore_spec (results : List (String × TestResult))
    (result : TestResult) (m : String)
    (hnodup : (results.map Prod.fst).Nodup) (hm : m ≠ result.variant.name) :
    ((addResult results result).map Prod.fst).Nodup ∧
    getResult (addResult results result) result.variant.name = some result ∧
    getResult (addResult results result) m = getResult results m ∧
    (results.any (fun p => p.1 == result.variant.name) = true →
      (addResult results result).map Prod.fst = results.map Prod.fst) ∧
    (results.any (fun p => p.1 == result.variant.name) = false →
      (addResult results result).map Prod.fst =
        results.map Prod.fst ++ [result.variant.name]) ∧
    (∀ rs : List TestResult, (((rs.foldl addResult []).map Prod.fst)).Nodup) :=
  ⟨addResult_keys_nodup results result hnodup,
    getResult_addResult_self results result,
    getResult_addResult_other results result m hm,
    addResult_keys_present results result,
    addResult_keys_absent results result,
    fun rs => foldl_addResult_nodup rs [] (by simp)⟩

/-- Closed instance of `resultsStore_spec`: one write into the empty store,
queried under its own name and under the unrelated name `other`. -/
theorem resultsStore_spec_witness :
    ((addResult [] sampleResult).map Prod.fst).Nodup ∧
    getResult (addResult [] sampleResult) sampleResult.variant.name =
      some sampleResult ∧
    getResult (addResult [] sampleResult) "other" = getResult [] "other" ∧
    (List.any ([] : List (String × TestResult)) (fun p => p.1 == sampleResult.variant.name) = true →
      (addResult [] sampleResult).map Prod.fst =
        List.map Prod.fst ([] : List (String × TestResult))) ∧
    (List.any ([] : List (String × TestResult)) (fun p => p.1 == sampleResult.variant.name) = false →
      (addResult [] sampleResult).map Prod.fst =
        List.map Prod.fst ([] : List (String × TestResult)) ++
          [sampleResult.variant.name]) ∧
    (∀ rs : List TestResult, (((rs.foldl addResult []).map Prod.fst)).Nodup) :=
  resultsStore_spec [] sampleResult "other" (by simp) (by decide)

/-- Closed instance of `testVariants_catalog`: size and name uniqueness. -/
theorem testVariants_catalog_witness :
    TEST_VARIANTS.length = 114 ∧ (TEST_VARIANTS.map (·.name)).Nodup :=
  ⟨(testVariants_catalog).2.1, (testVariants_catalog).2.2.1⟩

/-- Closed instance of `confidenceInterval_not_clamped`: the negative lower
bound at the concrete high-variance sample. -/
theorem confidenceInterval_not_clamped_witness :
    (calculateStatistics smallHighVarianceTrials).confidenceLayoutDuration.1 < 0 :=
  (confidenceInterval_not_clamped).2.2

/-- Closed instance of `sampleGate_spec` at one successful trial and `N = 10`. -/
theorem sampleGate_spec_witness :
    (sampleGatePasses (collectTrials [some emptyMetrics]).length 10 = false ↔
      ((collectTrials [some emptyMetrics]).length : ℚ) ≤ (((10 : ℕ)) : ℚ) * (8 / 10)) ∧
    collectTrials (none :: []) = collectTrials [] ∧
    sampleGatePasses (collectTrials (List.replicate 10 none)).length
      runsPerVariant = false :=
  sampleGate_spec [some emptyMetrics] [] 10

/-- Closed instance of `regressionGate_spec` at the all-zero summary. -/
theorem regressionGate_spec_witness :
    (regressionGateFails true emptySummary = true ↔
      (maxLayoutCount ≤ emptySummary.layoutCount ∨
        maxLayoutDurationMs ≤ emptySummary.layoutDuration ∨
        maxRecalcCount ≤ emptySummary.recalcStyleCount ∨
        maxRecalcDurationMs ≤ emptySummary.recalcStyleDuration)) ∧
    regressionGateFails false emptySummary = false :=
  regressionGate_spec emptySummary
